import Mathlib

/-!
Verification development for the TrialMatch clinical-trial matching core.

The repository ships the backend agents (validation, matching, site
feasibility, prediction, pattern discovery) only through their design
documents and test transcripts; the frontend React components are present
as TypeScript source.  Backend behaviour is therefore modelled from the
specification, faithfully to its words; the frontend Patterns view is
embedded directly from the TypeScript source.

All scores are modelled over ℚ (the documents use decimal constants such
as 0.30, 0.25, 0.917 exactly).
-/

namespace TrialMatch

/-- The four recognized controlled medical code systems. -/
inductive CodeSystem where
  | icd10
  | snomed
  | loinc
  | rxnorm
deriving DecidableEq, Repr, Fintype

/-- All four systems, in a fixed enumeration order. -/
def allSystems : List CodeSystem :=
  [CodeSystem.icd10, CodeSystem.snomed, CodeSystem.loinc, CodeSystem.rxnorm]

/-- A set of codes per code system (patient code sets and trial
exclusion/inclusion maps share this shape). -/
structure CodeSets where
  icd10 : List String
  snomed : List String
  loinc : List String
  rxnorm : List String
deriving DecidableEq, Repr

/-- The codes a `CodeSets` holds for one system. -/
def CodeSets.forSystem (cs : CodeSets) : CodeSystem → List String
  | CodeSystem.icd10 => cs.icd10
  | CodeSystem.snomed => cs.snomed
  | CodeSystem.loinc => cs.loinc
  | CodeSystem.rxnorm => cs.rxnorm

/-- Render a code system the way the validation agent's messages do. -/
def CodeSystem.label : CodeSystem → String
  | CodeSystem.icd10 => "ICD10"
  | CodeSystem.snomed => "SNOMED"
  | CodeSystem.loinc => "LOINC"
  | CodeSystem.rxnorm => "RxNorm"

/-- Modelled from the spec: the validation agent's static
code→description lookup (`exclusion_reasons` in
`agents/validation_agent.py`, absent from the shipped sources), with the
documented fallback "excluded <system> code <code>". -/
def exclusionReason (sys : CodeSystem) (code : String) : String :=
  if code = "E11.21" then "diabetic nephropathy"
  else if code = "E11.31" then "diabetic retinopathy"
  else if code = "I50.9" then "heart failure"
  else if code = "C50.9" then "breast cancer"
  else if code = "127013003" then "diabetic nephropathy (SNOMED)"
  else "excluded " ++ sys.label ++ " code " ++ code

/-- One exclusion violation: the matched code, its system and a
human-readable reason. -/
structure ExclusionViolation where
  system : CodeSystem
  code : String
  reason : String
deriving DecidableEq, Repr

/-- Validation result for a single patient. -/
structure PatientValidation where
  patient_id : String
  is_valid : Bool
  exclusion_violations : List ExclusionViolation
  validation_score : ℚ
deriving DecidableEq, Repr

/-- Modelled from the spec: `check_exclusions` of the validation agent
(`agents/validation_agent.py`, absent from the shipped sources).  For
each code system present in both the patient's codes and the exclusion
map, the set intersection is computed; one violation is appended per
matched code, and `is_valid` is false exactly when some violation
exists.  Exclusion is decided purely by code identity. -/
def check_exclusions (pid : String) (patientCodes exclusionCodes : CodeSets) :
    PatientValidation :=
  let viols := allSystems.flatMap fun sys =>
    ((patientCodes.forSystem sys).filter
        (fun c => (exclusionCodes.forSystem sys).contains c)).map
      (fun c => ExclusionViolation.mk sys c (exclusionReason sys c))
  { patient_id := pid
    is_valid := viols.isEmpty
    exclusion_violations := viols
    validation_score := if viols.isEmpty then 1 else 0 }

/-! ## Site feasibility scorer (§4.6), modelled from the spec -/

/-- Modelled from the spec: a site's static reference profile
(`site_capabilities.json` and `site_feasibility_scorer.py`, absent from
the shipped sources).  Chapter experience maps an ICD-10 chapter to a
trial count and a historical success rate; EHR population maps a
condition code to a patient count. -/
structure SiteProfile where
  site_id : String
  loinc_capabilities : List String
  icd10_chapter_experience : List (String × ℕ × ℚ)
  ehr_population_by_code : List (String × ℕ)
  max_concurrent_trials : ℕ
  current_trials : ℕ
deriving DecidableEq, Repr

/-- Well-formed reference data: stored success rates lie in [0,1] and a
site never runs more trials than its concurrent maximum. -/
def SiteProfile.WF (s : SiteProfile) : Prop :=
  (∀ e ∈ s.icd10_chapter_experience, 0 ≤ e.2.2 ∧ e.2.2 ≤ 1) ∧
  s.current_trials ≤ s.max_concurrent_trials

/-- Modelled from the spec: the static code→chapter table used by the
experience dimension (e.g. `E11.9 → E10-E14`); the documented chapters
are the diabetes, cardiovascular and cancer ones. -/
def chapterTable : List (String × String) :=
  [("E11.9", "E10-E14"), ("E11.21", "E10-E14"), ("E11.31", "E10-E14"),
   ("E11.65", "E10-E14"), ("I10", "I00-I99"), ("I50.9", "I00-I99"),
   ("C50.9", "C00-C97")]

/-- The ICD-10 chapter of a code; codes outside the table map to a
catch-all chapter no site records experience for. -/
def icd10Chapter (code : String) : String :=
  match chapterTable.find? (fun e => e.1 = code) with
  | some e => e.2
  | none => "OTHER"

/-- Look up a chapter's (trial_count, success_rate); a chapter the site
has no record for counts as zero experience. -/
def lookupChapter (xs : List (String × ℕ × ℚ)) (ch : String) : ℕ × ℚ :=
  match xs.find? (fun e => e.1 = ch) with
  | some e => e.2
  | none => (0, 0)

/-- Look up a code's EHR patient count; missing data is treated as
"unproven", i.e. zero patients, not an error. -/
def lookupPopulation (xs : List (String × ℕ)) (code : String) : ℕ :=
  match xs.find? (fun e => e.1 = code) with
  | some e => e.2
  | none => 0

/-- Modelled from the spec: CAPABILITY (weight 0.30) — the fraction of
required LOINC codes the site can perform.  The documented bands
(100% ⇒ 1.0, ≥80% ⇒ 0.8–1.0 linear, 50–80% ⇒ 0.5–0.8, <50% ⇒ 0–0.5)
interpolate linearly inside each band, i.e. the score equals the
coverage fraction; a trial requiring no lab work is fully covered. -/
def score_capability (site : SiteProfile) (required_loinc : List String) : ℚ :=
  if required_loinc.length = 0 then 1
  else
    ((required_loinc.filter
        (fun c => site.loinc_capabilities.contains c)).length : ℚ) /
      (required_loinc.length : ℚ)

/-- Experience contribution of one ICD-10 chapter: trial count capped at
50 for a full score, multiplied by the chapter's success rate. -/
def chapterScore (site : SiteProfile) (ch : String) : ℚ :=
  let e := lookupChapter site.icd10_chapter_experience ch
  min ((e.1 : ℚ) / 50) 1 * e.2

/-- Modelled from the spec: EXPERIENCE (weight 0.25) — each inclusion
ICD-10 code maps to its chapter; ≥50 trials in the chapter scores 1.0,
linear below, multiplied by the chapter's historical success rate.  The
best chapter among the trial's inclusion codes is taken. -/
def score_experience (site : SiteProfile) (inclusion_icd10 : List String) : ℚ :=
  (inclusion_icd10.map (fun c => chapterScore site (icd10Chapter c))).foldr max 0

/-- The population banding: ratio ≥20 ⇒ 1.0, ≥10 ⇒ 0.8, ≥1 ⇒ 0.3,
scaled linearly between the documented breakpoints. -/
def popBand (r : ℚ) : ℚ :=
  if 20 ≤ r then 1
  else if 10 ≤ r then 4/5 + (r - 10) * (1/50)
  else if 1 ≤ r then 3/10 + (r - 1) * (1/18)
  else 3/10 * r

/-- Modelled from the spec: POPULATION (weight 0.30) — the ratio of the
site's EHR patients carrying the trial's inclusion codes (summed over
codes) to the target enrollment, banded by `popBand`. -/
def score_population (site : SiteProfile) (inclusion_icd10 : List String)
    (target_enrollment : ℕ) : ℚ :=
  let total : ℕ :=
    (inclusion_icd10.map (lookupPopulation site.ehr_population_by_code)).sum
  popBand ((total : ℚ) / (target_enrollment : ℚ))

/-- The capacity banding over utilization `u`: <50% ⇒ 1.0,
50–85% ⇒ 0.5–1.0 linear, 85–95% ⇒ 0.2–0.5, >95% ⇒ 0–0.2. -/
def capacityBand (u : ℚ) : ℚ :=
  if u < 1/2 then 1
  else if u < 17/20 then 1 - (u - 1/2) * (10/7)
  else if u < 19/20 then 1/2 - (u - 17/20) * 3
  else 1/5 - (u - 19/20) * 4

/-- Modelled from the spec: CAPACITY (weight 0.15) — banded decreasing
function of `utilization = current_trials / max_concurrent_trials`. -/
def score_capacity (current maxTrials : ℕ) : ℚ :=
  capacityBand ((current : ℚ) / (maxTrials : ℚ))

/-- The declared weighted combination of the four sub-scores
(0.30 capability + 0.25 experience + 0.30 population + 0.15 capacity). -/
def weighted_feasibility (cap exp pop capac : ℚ) : ℚ :=
  3/10 * cap + 1/4 * exp + 3/10 * pop + 3/20 * capac

/-- Modelled from the spec: the overall 4-dimensional feasibility score
of a site for a trial. -/
def feasibility_score (site : SiteProfile) (required_loinc inclusion_icd10 :
    List String) (target_enrollment : ℕ) : ℚ :=
  weighted_feasibility
    (score_capability site required_loinc)
    (score_experience site inclusion_icd10)
    (score_population site inclusion_icd10 target_enrollment)
    (score_capacity site.current_trials site.max_concurrent_trials)

/-- The Mayo Clinic Rochester profile as reported by the repository's
Phase-4 test transcript: full coverage of the two required LOINC codes,
56 diabetes-chapter trials at 0.91 success, 12 000 E11.9 patients, and
65 concurrent-trial slots.  `current` is left as a parameter so both the
claimed 20-trial load and the documented 52-trial load can be scored. -/
def mayoSite (current : ℕ) : SiteProfile :=
  { site_id := "SITE002"
    loinc_capabilities := ["4548-4", "17856-6", "2339-0", "2093-3"]
    icd10_chapter_experience := [("E10-E14", 56, 91/100)]
    ehr_population_by_code := [("E11.9", 12000)]
    max_concurrent_trials := 65
    current_trials := current }

/-- The diabetes trial of the Phase-4 test: HbA1c and glucose labs,
inclusion code E11.9, 150 target enrollment. -/
def diabetesLoinc : List String := ["4548-4", "2339-0"]

/-- The diabetes trial's inclusion ICD-10 codes. -/
def diabetesIcd10 : List String := ["E11.9"]

/-! ## Patient scorer (§4.4), modelled from the spec -/

/-- A candidate reaching the Patient Scorer: its identifier, the three
already-derived sub-scores and its medical codes. -/
structure Candidate where
  patient_id : String
  eligibility_score : ℚ
  similarity_score : ℚ
  enrollment_probability : ℚ
  codes : CodeSets
deriving DecidableEq, Repr

/-- A scored patient–trial match; derived, never mutated after
creation. -/
structure PatientMatch where
  patient_id : String
  trial_id : String
  overall_score : ℚ
  eligibility_score : ℚ
  similarity_score : ℚ
  enrollment_probability : ℚ
  codes : CodeSets
  match_reasons : List String
  risk_factors : List String
deriving DecidableEq, Repr

/-- The declared weighting of the three matching sub-scores
(0.4 eligibility + 0.3 similarity + 0.3 enrollment probability). -/
def overallScore (e s p : ℚ) : ℚ := 2/5 * e + 3/10 * s + 3/10 * p

/-- Modelled from the spec: match reasons are generated deterministically
from which sub-scores crossed fixed thresholds. -/
def matchReasons (e s : ℚ) : List String :=
  (if 4/5 < e then ["strong eligibility match"] else []) ++
  (if 4/5 < s then ["very similar to pattern profile"] else [])

/-- Modelled from the spec: risk factors are generated deterministically
from low sub-scores. -/
def riskFactors (p : ℚ) : List String :=
  if p < 1/2 then ["low historical enrollment probability"] else []

/-- Modelled from the spec: the matching agent's per-candidate scoring
(`agents/matching_agent.py`, absent from the shipped sources). -/
def mkMatch (trial : String) (c : Candidate) : PatientMatch :=
  { patient_id := c.patient_id
    trial_id := trial
    overall_score :=
      overallScore c.eligibility_score c.similarity_score c.enrollment_probability
    eligibility_score := c.eligibility_score
    similarity_score := c.similarity_score
    enrollment_probability := c.enrollment_probability
    codes := c.codes
    match_reasons := matchReasons c.eligibility_score c.similarity_score
    risk_factors := riskFactors c.enrollment_probability }

/-- The output order of the Patient Scorer: descending overall score,
ties broken by ascending patient id. -/
def matchLE (a b : PatientMatch) : Prop :=
  b.overall_score < a.overall_score ∨
    (a.overall_score = b.overall_score ∧ a.patient_id ≤ b.patient_id)

instance : DecidableRel matchLE := fun _a _b =>
  inferInstanceAs (Decidable (_ ∨ _))

instance : IsTotal PatientMatch matchLE where
  total a b := by
    rcases lt_trichotomy a.overall_score b.overall_score with h | h | h
    · exact Or.inr (Or.inl h)
    · rcases le_total a.patient_id b.patient_id with hp | hp
      · exact Or.inl (Or.inr ⟨h, hp⟩)
      · exact Or.inr (Or.inr ⟨h.symm, hp⟩)
    · exact Or.inl (Or.inl h)

instance : IsTrans PatientMatch matchLE where
  trans a b c hab hbc := by
    rcases hab with hab | ⟨hab, pab⟩
    · rcases hbc with hbc | ⟨hbc, _⟩
      · exact Or.inl (hbc.trans hab)
      · exact Or.inl (hbc ▸ hab)
    · rcases hbc with hbc | ⟨hbc, pbc⟩
      · exact Or.inl (hab ▸ hbc)
      · exact Or.inr ⟨hab.trans hbc, pab.trans pbc⟩

/-- Modelled from the spec: score all candidates and return them sorted
descending by overall score, ties broken by patient id. -/
def score_patients (trial : String) (cs : List Candidate) : List PatientMatch :=
  List.insertionSort matchLE (cs.map (mkMatch trial))

/-! ## Exclusion validation over scored matches (§4.5) -/

/-- Modelled from the spec: the validation stage pairs every incoming
`PatientMatch` — untouched — with the validation computed from its code
sets and the trial's exclusion codes. -/
def validate_matches (ms : List PatientMatch) (exclusionCodes : CodeSets) :
    List (PatientMatch × PatientValidation) :=
  ms.map (fun m => (m, check_exclusions m.patient_id m.codes exclusionCodes))

/-! ## Pattern discovery (§4.1), modelled from the spec -/

/-- Modelled from the spec: the dimensionality reduction of the pattern
discovery engine (the Conway engine's UMAP step, absent from the shipped
sources) — a deterministic projection of each embedding to `dim`
coordinates, whose choice of coordinates is fixed by the random seed. -/
def project (seed dim : ℕ) (v : List ℚ) : List ℚ :=
  let k := seed % (v.length + 1)
  (v.drop k ++ v.take k).take dim

/-- The grid cell of a projected point at resolution `eps`; points
sharing a cell are density-neighbours. -/
def cellOf (eps : ℚ) (v : List ℚ) : List ℤ :=
  v.map (fun x => ⌊x / eps⌋)

/-- Modelled from the spec: density-based clustering of the pattern
discovery engine (the Conway engine's HDBSCAN step, absent from the
shipped sources).  Projected points are bucketed into grid cells; cells
holding at least `minClusterSize` points become patterns, numbered in
order of first appearance, and every other point is noise (`none`). -/
def discover_patterns (seed minClusterSize : ℕ) (eps : ℚ)
    (embeddings : List (String × List ℚ)) : List (String × Option ℕ) :=
  let cells := embeddings.map (fun e => (e.1, cellOf eps (project seed 2 e.2)))
  let dense := ((cells.map Prod.snd).dedup).filter
    (fun c => minClusterSize ≤ (cells.filter (fun p => p.2 = c)).length)
  cells.map (fun p => (p.1, dense.indexOf? p.2))

/-! ## Enrollment predictor (§4.7), modelled from the spec -/

/-- The documented planning horizon cap on a forecast's week count. -/
def maxPlanningWeeks : ℚ := 520

/-- An enrollment forecast; `achievable = false` carries the explicit
"timeline not achievable" condition. -/
structure EnrollmentForecast where
  target_enrollment : ℕ
  estimated_weeks : ℚ
  weekly_rate : ℚ
  achievable : Bool
  risk_factors : List String
deriving DecidableEq, Repr

/-- Modelled from the spec: the prediction agent's timeline computation
(`agents/prediction_agent.py`, absent from the shipped sources).  A
weekly rate that rounded to zero (or below) yields an explicit
not-achievable report at the planning horizon instead of an unbounded
`target / rate`; otherwise the week estimate is capped at the
horizon. -/
def make_forecast (target : ℕ) (weekly_rate : ℚ) : EnrollmentForecast :=
  if weekly_rate ≤ 0 then
    { target_enrollment := target
      estimated_weeks := maxPlanningWeeks
      weekly_rate := weekly_rate
      achievable := false
      risk_factors := ["timeline not achievable within planning horizon"] }
  else
    { target_enrollment := target
      estimated_weeks := min ((target : ℚ) / weekly_rate) maxPlanningWeeks
      weekly_rate := weekly_rate
      achievable := true
      risk_factors := [] }

/-! ## Frontend Patterns view, embedded from the TypeScript source -/

/-- A pattern as returned by `GET /api/patterns`. -/
structure BackendPattern where
  pattern_id : String
  size : ℕ
  centroid : List ℚ
deriving DecidableEq, Repr

/-- A pattern as held in the Patterns view's React state. -/
structure UIPattern where
  name : String
  count : ℕ
  color : String
deriving DecidableEq, Repr

/-- The colour palette of `PatternsView.fetchPatterns`. -/
def patternColors : List String :=
  ["#0B5394", "#1E6BB8", "#3B82F6", "#60A5FA", "#93C5FD"]

/-- The success path of `fetchPatterns`: one UI pattern per backend
pattern, labelled `Pattern (idx+1)`, counting `p.size`, coloured from
the palette cyclically. -/
def mapBackendPatterns (ps : List BackendPattern) : List UIPattern :=
  ps.enum.map (fun ip =>
    { name := "Pattern " ++ toString (ip.1 + 1)
      count := ip.2.size
      color := patternColors.getD (ip.1 % patternColors.length) "" })

/-- The hardcoded fallback the catch branch of `fetchPatterns` installs. -/
def fallbackPatterns : List UIPattern :=
  [{ name := "Pattern 0", count := 3254, color := "#0B5394" },
   { name := "Pattern 1", count := 1746, color := "#1E6BB8" }]

/-- The Patterns view's fetch, embedded from
`PatternsView.fetchPatterns`: `none` models the fetch throwing, caught
silently (only a console log, no error state rendered); `some data`
models a successful JSON response. -/
def fetchPatterns (resp : Option (List BackendPattern)) : List UIPattern :=
  match resp with
  | some data => mapBackendPatterns data
  | none => fallbackPatterns

/-! ## Concrete data for witnesses -/

/-- A concrete scorer candidate. -/
def witnessCandidateA : Candidate :=
  { patient_id := "P002", eligibility_score := 9/10, similarity_score := 1/2,
    enrollment_probability := 3/4, codes := CodeSets.mk ["E11.9"] [] [] [] }

/-- A second concrete scorer candidate, tying on every sub-score. -/
def witnessCandidateB : Candidate :=
  { patient_id := "P001", eligibility_score := 9/10, similarity_score := 1/2,
    enrollment_probability := 3/4, codes := CodeSets.mk [] [] [] [] }

/-- A concrete scored match. -/
def frameMatchA : PatientMatch :=
  { patient_id := "P010", trial_id := "NCT07083401", overall_score := 9/10,
    eligibility_score := 9/10, similarity_score := 9/10,
    enrollment_probability := 9/10, codes := CodeSets.mk ["E11.9"] [] [] [],
    match_reasons := [], risk_factors := [] }

/-- The same patient as `frameMatchA` with every score altered; the
validator cannot tell them apart. -/
def frameMatchB : PatientMatch :=
  { patient_id := "P010", trial_id := "NCT07083401", overall_score := 1/10,
    eligibility_score := 1/10, similarity_score := 1/10,
    enrollment_probability := 1/10, codes := CodeSets.mk ["E11.9"] [] [] [],
    match_reasons := [], risk_factors := [] }

/-- Five concrete patient embeddings: two dense pairs and one outlier. -/
def witnessEmbeddings : List (String × List ℚ) :=
  [("P001", [0, 0, 1]), ("P002", [0, 1/4, 1]), ("P003", [10, 10, 1]),
   ("P004", [10, 41/4, 1]), ("P005", [100, 100, 100])]

end TrialMatch

namespace TrialMatch

/-- Every code system occurs in the fixed enumeration. -/
lemma mem_allSystems (s : CodeSystem) : s ∈ allSystems := by
  cases s <;> decide

/-- The validator accepts a patient exactly when no code system carries a
code shared by the patient and the exclusion map. -/
lemma check_exclusions_valid_iff (pid : String) (pc ec : CodeSets) :
    (check_exclusions pid pc ec).is_valid = true ↔
      ∀ sys : CodeSystem, ∀ c : String,
        c ∈ pc.forSystem sys → c ∉ ec.forSystem sys := by
  simp only [check_exclusions, List.isEmpty_iff, List.flatMap_eq_nil_iff,
    List.map_eq_nil_iff, List.filter_eq_nil_iff]
  constructor
  · intro h sys c hc
    have := h sys (mem_allSystems sys) c hc
    simpa using this
  · intro h sys _ c hc
    simpa using h sys c hc

end TrialMatch

namespace TrialMatch

/-- C1: the exclusion validator returns `is_valid = false` exactly when
some code of the patient intersects the trial's exclusion codes within
the same system; an empty intersection across all systems yields
`is_valid = true`.  Exclusion is decided by code identity alone: the
validator's result is a function of the code sets only. -/
theorem exclusion_validator_code_identity
    (pid : String) (patientCodes exclusionCodes : CodeSets) :
    ((check_exclusions pid patientCodes exclusionCodes).is_valid = false ↔
      ∃ sys : CodeSystem, ∃ c : String,
        c ∈ patientCodes.forSystem sys ∧ c ∈ exclusionCodes.forSystem sys) ∧
    ((∀ sys : CodeSystem, ∀ c : String,
        c ∈ patientCodes.forSystem sys → c ∉ exclusionCodes.forSystem sys) →
      (check_exclusions pid patientCodes exclusionCodes).is_valid = true) := by
  have key := check_exclusions_valid_iff pid patientCodes exclusionCodes
  constructor
  · rw [← Bool.not_eq_true, key]
    push_neg
    constructor
    · rintro ⟨sys, c, hc, hex⟩
      exact ⟨sys, c, hc, hex⟩
    · rintro ⟨sys, c, hc, hex⟩
      exact ⟨sys, c, hc, hex⟩
  · exact key.mpr

/-- Witness for C1: a concrete patient whose SNOMED code 44054006 is in
the trial's SNOMED exclusion set is invalidated, and a disjoint patient
is validated. -/
theorem exclusion_validator_code_identity_witness :
    (check_exclusions "P9" (CodeSets.mk [] ["44054006"] [] [])
        (CodeSets.mk [] ["44054006"] [] [])).is_valid = false ∧
    (check_exclusions "P8" (CodeSets.mk ["I10"] [] [] [])
        (CodeSets.mk [] ["44054006"] [] [])).is_valid = true := by
  constructor
  · exact (exclusion_validator_code_identity "P9"
      (CodeSets.mk [] ["44054006"] [] [])
      (CodeSets.mk [] ["44054006"] [] [])).1.2
      ⟨CodeSystem.snomed, "44054006", by decide, by decide⟩
  · exact (exclusion_validator_code_identity "P8"
      (CodeSets.mk ["I10"] [] [] [])
      (CodeSets.mk [] ["44054006"] [] [])).2 (by decide)

/-- C2: scenario A — a patient with ICD-10 codes {E11.9, E11.21} against
a trial excluding ICD-10 E11.21 is invalid with exactly one violation
citing E11.21; scenario B — a patient with only {E11.9} against the same
trial is valid with zero violations. -/
theorem exclusion_validator_scenarios_AB :
    (let vA := check_exclusions "PA" (CodeSets.mk ["E11.9", "E11.21"] [] [] [])
        (CodeSets.mk ["E11.21"] [] [] [])
     vA.is_valid = false ∧ vA.exclusion_violations.length = 1 ∧
       (vA.exclusion_violations.map (fun v => v.code)) = ["E11.21"]) ∧
    (let vB := check_exclusions "PB" (CodeSets.mk ["E11.9"] [] [] [])
        (CodeSets.mk ["E11.21"] [] [] [])
     vB.is_valid = true ∧ vB.exclusion_violations.length = 0) := by
  constructor
  · exact ⟨by decide, by decide, by decide⟩
  · exact ⟨by decide, by decide⟩

end TrialMatch

namespace TrialMatch

/-- The population banding stays within [0,1] on nonnegative ratios. -/
lemma popBand_mem {r : ℚ} (hr : 0 ≤ r) : 0 ≤ popBand r ∧ popBand r ≤ 1 := by
  unfold popBand
  split_ifs <;> constructor <;> linarith

/-- The capacity banding stays within [0,1] on utilizations in [0,1]. -/
lemma capacityBand_mem {u : ℚ} (h1 : u ≤ 1) :
    0 ≤ capacityBand u ∧ capacityBand u ≤ 1 := by
  unfold capacityBand
  split_ifs <;> constructor <;> linarith

/-- The capacity banding never increases when utilization grows. -/
lemma capacityBand_antitone {x y : ℚ} (h : x ≤ y) :
    capacityBand y ≤ capacityBand x := by
  unfold capacityBand
  split_ifs <;> linarith

/-- The capability sub-score is a coverage fraction, hence in [0,1]. -/
lemma score_capability_mem (site : SiteProfile) (req : List String) :
    0 ≤ score_capability site req ∧ score_capability site req ≤ 1 := by
  unfold score_capability
  split_ifs with h
  · norm_num
  · have hlen : 0 < (req.length : ℚ) := by
      have : 0 < req.length := Nat.pos_of_ne_zero h
      exact_mod_cast this
    have hle : (req.filter
        (fun c => site.loinc_capabilities.contains c)).length ≤ req.length :=
      List.length_filter_le _ _
    constructor
    · positivity
    · rw [div_le_one hlen]
      exact_mod_cast hle

/-- One chapter's experience contribution is in [0,1] when the stored
success rates are. -/
lemma chapterScore_mem (site : SiteProfile) (ch : String)
    (hwf : ∀ e ∈ site.icd10_chapter_experience, 0 ≤ e.2.2 ∧ e.2.2 ≤ 1) :
    0 ≤ chapterScore site ch ∧ chapterScore site ch ≤ 1 := by
  unfold chapterScore lookupChapter
  rcases hfind : site.icd10_chapter_experience.find? (fun e => e.1 = ch) with _ | e
  · simp only [hfind]
    norm_num
  · simp only [hfind]
    have hmem := List.mem_of_find?_eq_some hfind
    have hsr := hwf e hmem
    have hmin0 : (0:ℚ) ≤ min ((e.2.1 : ℚ) / 50) 1 := by
      apply le_min _ (by norm_num)
      positivity
    have hmin1 : min ((e.2.1 : ℚ) / 50) 1 ≤ 1 := min_le_right _ _
    constructor
    · exact mul_nonneg hmin0 hsr.1
    · calc min ((e.2.1 : ℚ) / 50) 1 * e.2.2 ≤ 1 * 1 :=
            mul_le_mul hmin1 hsr.2 hsr.1 (by norm_num)
      _ = 1 := by norm_num

/-- A fold of `max` over values in [0,1], started at 0, stays in [0,1]. -/
lemma foldr_max_mem {l : List ℚ} (h : ∀ x ∈ l, 0 ≤ x ∧ x ≤ 1) :
    0 ≤ l.foldr max 0 ∧ l.foldr max 0 ≤ 1 := by
  induction l with
  | nil => simp
  | cons a t ih =>
    have ha := h a (by simp)
    have ht := ih (fun x hx => h x (by simp [hx]))
    simp only [List.foldr_cons]
    exact ⟨le_max_of_le_right ht.1, max_le ha.2 ht.2⟩

/-- The experience sub-score is in [0,1] for well-formed site data. -/
lemma score_experience_mem (site : SiteProfile) (codes : List String)
    (hwf : ∀ e ∈ site.icd10_chapter_experience, 0 ≤ e.2.2 ∧ e.2.2 ≤ 1) :
    0 ≤ score_experience site codes ∧ score_experience site codes ≤ 1 := by
  unfold score_experience
  apply foldr_max_mem
  intro x hx
  rcases List.mem_map.mp hx with ⟨c, _, hc⟩
  exact hc ▸ chapterScore_mem site (icd10Chapter c) hwf

/-- The population sub-score is in [0,1] unconditionally (missing data
scores low, never errors). -/
lemma score_population_mem (site : SiteProfile) (codes : List String)
    (target : ℕ) :
    0 ≤ score_population site codes target ∧
      score_population site codes target ≤ 1 := by
  unfold score_population
  apply popBand_mem
  positivity

/-- The capacity sub-score is in [0,1] when a site does not exceed its
concurrent maximum. -/
lemma score_capacity_mem (current maxTrials : ℕ) (h : current ≤ maxTrials) :
    0 ≤ score_capacity current maxTrials ∧
      score_capacity current maxTrials ≤ 1 := by
  unfold score_capacity
  rcases Nat.eq_zero_or_pos maxTrials with h0 | hpos
  · rw [h0]
    norm_num [capacityBand]
  · have hm : 0 < (maxTrials : ℚ) := by exact_mod_cast hpos
    apply capacityBand_mem
    rw [div_le_one hm]
    exact_mod_cast h

end TrialMatch

namespace TrialMatch

/-- C3: for every site with well-formed reference data, the feasibility
score lies in [0,1] and equals the weighted sum
0.30·capability + 0.25·experience + 0.30·population + 0.15·capacity of
its four sub-scores, each of which lies in [0,1]. -/
theorem feasibility_score_bounds_and_weighted_sum
    (site : SiteProfile) (required_loinc inclusion_icd10 : List String)
    (target_enrollment : ℕ) (hwf : site.WF) :
    (0 ≤ feasibility_score site required_loinc inclusion_icd10 target_enrollment ∧
      feasibility_score site required_loinc inclusion_icd10 target_enrollment ≤ 1) ∧
    feasibility_score site required_loinc inclusion_icd10 target_enrollment =
      3/10 * score_capability site required_loinc +
      1/4 * score_experience site inclusion_icd10 +
      3/10 * score_population site inclusion_icd10 target_enrollment +
      3/20 * score_capacity site.current_trials site.max_concurrent_trials ∧
    (0 ≤ score_capability site required_loinc ∧
      score_capability site required_loinc ≤ 1) ∧
    (0 ≤ score_experience site inclusion_icd10 ∧
      score_experience site inclusion_icd10 ≤ 1) ∧
    (0 ≤ score_population site inclusion_icd10 target_enrollment ∧
      score_population site inclusion_icd10 target_enrollment ≤ 1) ∧
    (0 ≤ score_capacity site.current_trials site.max_concurrent_trials ∧
      score_capacity site.current_trials site.max_concurrent_trials ≤ 1) := by
  have hcap := score_capability_mem site required_loinc
  have hexp := score_experience_mem site inclusion_icd10 hwf.1
  have hpop := score_population_mem site inclusion_icd10 target_enrollment
  have hcapac := score_capacity_mem site.current_trials site.max_concurrent_trials hwf.2
  refine ⟨⟨?_, ?_⟩, rfl, hcap, hexp, hpop, hcapac⟩
  · unfold feasibility_score weighted_feasibility
    have := hcap.1
    have := hexp.1
    have := hpop.1
    have := hcapac.1
    linarith
  · unfold feasibility_score weighted_feasibility
    have := hcap.2
    have := hexp.2
    have := hpop.2
    have := hcapac.2
    linarith

/-- Witness for C3: the documented Mayo profile at 52 current trials is
well-formed and its feasibility score lies in [0,1]. -/
theorem feasibility_score_bounds_witness :
    (mayoSite 52).WF ∧
    (0 ≤ feasibility_score (mayoSite 52) diabetesLoinc diabetesIcd10 150 ∧
      feasibility_score (mayoSite 52) diabetesLoinc diabetesIcd10 150 ≤ 1) := by
  have hwf : (mayoSite 52).WF := by
    refine ⟨?_, by norm_num [mayoSite]⟩
    intro e he
    simp only [mayoSite, List.mem_singleton] at he
    rw [he]
    norm_num
  exact ⟨hwf,
    (feasibility_score_bounds_and_weighted_sum (mayoSite 52) diabetesLoinc
      diabetesIcd10 150 hwf).1⟩

/-- C4 counterexample: with the inputs exactly as the claim states them —
100% LOINC coverage, 56 chapter trials at 0.91 success, an 80× population
ratio, but utilization 20/65 — the §4.6 banding puts the capacity
sub-score at 1.0 (utilization below 50%), so the feasibility score is
0.9775, not approximately 0.917. -/
theorem feasibility_scenarioC_as_stated_fails :
    feasibility_score (mayoSite 20) diabetesLoinc diabetesIcd10 150 = 391/400 ∧
    ¬ |feasibility_score (mayoSite 20) diabetesLoinc diabetesIcd10 150 -
        917/1000| ≤ 1/200 := by
  have heval : feasibility_score (mayoSite 20) diabetesLoinc diabetesIcd10 150
      = 391/400 := by
    norm_num +decide [feasibility_score, weighted_feasibility, score_capability,
      score_experience, score_population, score_capacity, chapterScore,
      lookupChapter, lookupPopulation, popBand, capacityBand, mayoSite,
      diabetesLoinc, diabetesIcd10, icd10Chapter, chapterTable]
  refine ⟨heval, ?_⟩
  rw [heval, abs_of_nonneg (by norm_num)]
  norm_num

/-- C4 amended: the repository's own test transcript has Mayo at 52 of
65 concurrent trials (13 slots free), not at utilization 20/65.  With
those inputs the §4.6 banding yields feasibility 2557/2800 ≈ 0.9132,
within 0.005 of the documented 0.917; the transcript's exact 0.917
arises from the weighted sum with its reported capacity sub-score
0.600. -/
theorem feasibility_scenarioC_amended :
    feasibility_score (mayoSite 52) diabetesLoinc diabetesIcd10 150 = 2557/2800 ∧
    |feasibility_score (mayoSite 52) diabetesLoinc diabetesIcd10 150 -
      917/1000| ≤ 1/200 ∧
    weighted_feasibility 1 (91/100) 1 (3/5) = 367/400 := by
  have heval : feasibility_score (mayoSite 52) diabetesLoinc diabetesIcd10 150
      = 2557/2800 := by
    norm_num +decide [feasibility_score, weighted_feasibility, score_capability,
      score_experience, score_population, score_capacity, chapterScore,
      lookupChapter, lookupPopulation, popBand, capacityBand, mayoSite,
      diabetesLoinc, diabetesIcd10, icd10Chapter, chapterTable]
  refine ⟨heval, ?_, by norm_num [weighted_feasibility]⟩
  rw [heval, abs_of_nonpos (by norm_num)]
  norm_num

/-- C5: holding the concurrent-trial maximum fixed, increasing a site's
current trial load never increases its capacity sub-score, across all
utilization bands. -/
theorem capacity_score_antitone (maxTrials c₁ c₂ : ℕ) (h : c₁ ≤ c₂) :
    score_capacity c₂ maxTrials ≤ score_capacity c₁ maxTrials := by
  unfold score_capacity
  apply capacityBand_antitone
  exact div_le_div_of_nonneg_right (by exact_mod_cast h) (by positivity)

/-- Witness for C5: raising Mayo's load from 20 to 52 of 65 does not
raise the capacity sub-score. -/
theorem capacity_score_antitone_witness :
    score_capacity 52 65 ≤ score_capacity 20 65 :=
  capacity_score_antitone 65 20 52 (by norm_num)

end TrialMatch

namespace TrialMatch

/-- C6: every match produced by the Patient Scorer has
`overall_score = 0.4·eligibility + 0.3·similarity + 0.3·enrollment
probability`, the output list is sorted descending by overall score with
ties broken by patient id, and scoring the same candidate list twice
yields the same order. -/
theorem patient_scorer_formula_and_order (trial : String) (cs cs₂ : List Candidate) :
    (∀ m ∈ score_patients trial cs,
        m.overall_score = 2/5 * m.eligibility_score + 3/10 * m.similarity_score +
          3/10 * m.enrollment_probability) ∧
    List.Sorted matchLE (score_patients trial cs) ∧
    (cs₂ = cs → score_patients trial cs₂ = score_patients trial cs) := by
  refine ⟨?_, List.sorted_insertionSort matchLE _, fun h => by rw [h]⟩
  intro m hm
  unfold score_patients at hm
  rw [List.mem_insertionSort] at hm
  rcases List.mem_map.mp hm with ⟨c, _, hc⟩
  rw [← hc]
  simp [mkMatch, overallScore]

/-- Witness for C6: a concrete two-candidate run is sorted, and a second
run on the same list yields the same output. -/
theorem patient_scorer_witness :
    List.Sorted matchLE
      (score_patients "NCT07083401" [witnessCandidateA, witnessCandidateB]) ∧
    score_patients "NCT07083401" [witnessCandidateA, witnessCandidateB] =
      score_patients "NCT07083401" [witnessCandidateA, witnessCandidateB] :=
  ⟨(patient_scorer_formula_and_order "NCT07083401"
      [witnessCandidateA, witnessCandidateB]
      [witnessCandidateA, witnessCandidateB]).2.1,
   (patient_scorer_formula_and_order "NCT07083401"
      [witnessCandidateA, witnessCandidateB]
      [witnessCandidateA, witnessCandidateB]).2.2 rfl⟩

/-- C9: validation leaves every `PatientMatch` unchanged — the list of
matches paired with their validations projects back to exactly the input
list, each validation is computed from the patient's codes and the
exclusion codes alone, and two matches agreeing on patient id and codes
(whatever their scores) validate identically. -/
theorem exclusion_validator_frame (ms : List PatientMatch) (ec : CodeSets) :
    ((validate_matches ms ec).map Prod.fst = ms) ∧
    (∀ m ∈ ms, ∀ v : PatientValidation,
        (m, v) ∈ validate_matches ms ec →
        v = check_exclusions m.patient_id m.codes ec) ∧
    (∀ m₁ m₂ : PatientMatch, m₁.patient_id = m₂.patient_id →
        m₁.codes = m₂.codes →
        check_exclusions m₁.patient_id m₁.codes ec =
          check_exclusions m₂.patient_id m₂.codes ec) := by
  refine ⟨?_, ?_, ?_⟩
  · have : (Prod.fst ∘ fun m : PatientMatch =>
        (m, check_exclusions m.patient_id m.codes ec)) = id := rfl
    rw [validate_matches, List.map_map, this, List.map_id]
  · intro m _ v hv
    rcases List.mem_map.mp hv with ⟨m', _, hm'⟩
    have h1 : m' = m := congrArg Prod.fst hm'
    have h2 := congrArg Prod.snd hm'
    simp only at h1 h2
    rw [← h2, h1]
  · intro m₁ m₂ h1 h2
    rw [h1, h2]

/-- Witness for C9: the same patient at overall score 0.9 and at 0.1 gets
the identical validation result. -/
theorem exclusion_validator_frame_witness :
    check_exclusions frameMatchA.patient_id frameMatchA.codes
        (CodeSets.mk ["E11.21"] [] [] []) =
      check_exclusions frameMatchB.patient_id frameMatchB.codes
        (CodeSets.mk ["E11.21"] [] [] []) :=
  (exclusion_validator_frame [] (CodeSets.mk ["E11.21"] [] [] [])).2.2
    frameMatchA frameMatchB rfl rfl

/-- C7: pattern discovery is deterministic — two runs with the same seed
on identical embedding sets assign every patient the same pattern id. -/
theorem pattern_discovery_deterministic (seed minClusterSize : ℕ) (eps : ℚ)
    (e₁ e₂ : List (String × List ℚ)) (h : e₁ = e₂) :
    ∀ pid : String,
      (discover_patterns seed minClusterSize eps e₁).lookup pid =
        (discover_patterns seed minClusterSize eps e₂).lookup pid := by
  subst h
  intro pid
  rfl

/-- Witness for C7: a concrete five-patient embedding set clustered twice
under seed 42 assigns P003 the same pattern id. -/
theorem pattern_discovery_deterministic_witness :
    (discover_patterns 42 2 1 witnessEmbeddings).lookup "P003" =
      (discover_patterns 42 2 1 witnessEmbeddings).lookup "P003" :=
  pattern_discovery_deterministic 42 2 1 witnessEmbeddings witnessEmbeddings rfl
    "P003"

/-- C8: a weekly rate that rounded to zero produces an explicit
not-achievable report with a finite week count at the planning horizon
(never an unbounded `target / 0`), and a positive rate produces
`target / weekly_rate` capped at the horizon; the estimate is bounded in
every case. -/
theorem enrollment_forecast_no_unbounded_weeks (target : ℕ) (wr : ℚ) :
    (wr = 0 →
      (make_forecast target wr).achievable = false ∧
      "timeline not achievable within planning horizon" ∈
        (make_forecast target wr).risk_factors ∧
      (make_forecast target wr).estimated_weeks = maxPlanningWeeks) ∧
    (0 < wr →
      (make_forecast target wr).achievable = true ∧
      (make_forecast target wr).estimated_weeks =
        min ((target : ℚ) / wr) maxPlanningWeeks) ∧
    (make_forecast target wr).estimated_weeks ≤ maxPlanningWeeks := by
  refine ⟨?_, ?_, ?_⟩
  · intro h0
    rw [make_forecast, if_pos (le_of_eq h0)]
    exact ⟨rfl, by simp, rfl⟩
  · intro hpos
    rw [make_forecast, if_neg (not_le.mpr hpos)]
    exact ⟨rfl, rfl⟩
  · rw [make_forecast]
    split_ifs
    · exact le_refl _
    · exact min_le_right _ _

/-- Witness for C8: a 150-patient target at weekly rate 0 reports
not-achievable, and at weekly rate 6 stays within the horizon. -/
theorem enrollment_forecast_witness :
    ((make_forecast 150 0).achievable = false ∧
      "timeline not achievable within planning horizon" ∈
        (make_forecast 150 0).risk_factors) ∧
    (make_forecast 150 6).estimated_weeks ≤ maxPlanningWeeks :=
  ⟨⟨((enrollment_forecast_no_unbounded_weeks 150 0).1 rfl).1,
    ((enrollment_forecast_no_unbounded_weeks 150 0).1 rfl).2.1⟩,
   (enrollment_forecast_no_unbounded_weeks 150 6).2.2⟩

/-- C10: when the `/api/patterns` fetch throws, the Patterns view
silently installs the two hardcoded fallback patterns ("Pattern 0" with
3254 patients, "Pattern 1" with 1746) and renders no error state; on
success it renders one entry per backend pattern, in order, counting
exactly the backend sizes. -/
theorem patterns_view_fallback_and_success :
    fetchPatterns none = fallbackPatterns ∧
    fallbackPatterns.map (fun p => (p.name, p.count)) =
      [("Pattern 0", 3254), ("Pattern 1", 1746)] ∧
    ∀ data : List BackendPattern,
      (fetchPatterns (some data)).map (fun p => p.count) =
        data.map (fun p => p.size) ∧
      (fetchPatterns (some data)).length = data.length := by
  refine ⟨rfl, rfl, ?_⟩
  intro data
  constructor
  · show (mapBackendPatterns data).map (fun p => p.count) = data.map (fun p => p.size)
    rw [mapBackendPatterns, List.map_map]
    have : ((fun p : UIPattern => p.count) ∘ fun ip : ℕ × BackendPattern =>
        ({ name := "Pattern " ++ toString (ip.1 + 1), count := ip.2.size,
           color := patternColors.getD (ip.1 % patternColors.length) "" } : UIPattern)) =
        (fun p : BackendPattern => p.size) ∘ Prod.snd := rfl
    rw [this, ← List.map_map, List.enum_map_snd]
  · show (mapBackendPatterns data).length = data.length
    rw [mapBackendPatterns, List.length_map, List.enum_length]

end TrialMatch
